import Mathlib

/-!
Shallow embedding of `logical/request.go` from the vault repository.

The Go file defines the `Operation` string enumeration, the `Request`
struct with its `Get`/`GetString` accessors, and the derived-request
constructors `RenewRequest`, `RevokeRequest`, `RollbackRequest`.

Modelling choices (faithful to the Go source):
- Go `Operation` is a named string type: we use `abbrev Operation := String`
  together with the eight named constants from the source.
- Go pointers and nil-able interfaces (`*Secret`, the `Storage` interface,
  a `map[string]interface{}` that may be nil) become `Option` values,
  with `none` standing for Go `nil`.
- Go `interface{}` values stored in `Data` become the inductive `GoValue`;
  `GoValue.nil` is the zero value a Go map index yields for a missing key,
  and the value a nil interface holds.
- A Go map with string keys becomes an association list with unique-key
  lookup semantics (`List.lookup` returns the first binding, and Go maps
  never hold duplicate keys).
-/

namespace Logical

/-- The internals of the `Secret` type live outside this file in the Go
source; the claims only need pointer identity and nil-ness, so a single
tag field suffices. -/
structure Secret where
  id : Nat
deriving DecidableEq, Repr

/-- The `Storage` capability is an interface defined outside this file;
the claims only need whether the field was set, so a tag field suffices. -/
structure Storage where
  id : Nat
deriving DecidableEq, Repr

/-- A Go `interface{}` value as stored in the request's `Data` map:
either the nil interface, a string, an integer, or a boolean. -/
inductive GoValue where
  | nil : GoValue
  | str : String → GoValue
  | int : Int → GoValue
  | boolean : Bool → GoValue
deriving DecidableEq, Repr

/-- Go `Operation` is a string-backed named type. -/
abbrev Operation := String

def ReadOperation : Operation := "read"

def WriteOperation : Operation := "write"

def DeleteOperation : Operation := "delete"

def ListOperation : Operation := "list"

def HelpOperation : Operation := "help"

def RevokeOperation : Operation := "revoke"

def RenewOperation : Operation := "renew"

def RollbackOperation : Operation := "rollback"

/-- The operation constants declared in the source's `const` block, in
source order. -/
def definedOperations : List Operation :=
  [ReadOperation, WriteOperation, DeleteOperation, ListOperation,
   HelpOperation, RevokeOperation, RenewOperation, RollbackOperation]

/-- A `map[string]interface{}` payload: string keys to `GoValue`s. -/
abbrev DataMap := List (String × GoValue)

/-- Go map indexing `m[key]`: the stored value, or the zero value of
`interface{}` (the nil interface) when the key is missing. -/
def mapIndex (m : DataMap) (key : String) : GoValue :=
  match m.lookup key with
  | some v => v
  | none => GoValue.nil

/-- The `Request` struct from the source. `Option` fields model Go
nil-able values: a nil `Data` map, a nil `Storage` interface, a nil
`*Secret` pointer. -/
structure Request where
  Operation : Operation
  Path : String
  Data : Option DataMap
  Storage : Option Logical.Storage
  Secret : Option Logical.Secret
deriving DecidableEq, Repr

/-- `func (r *Request) Get(key string) interface{}`: returns nil when
`Data` is nil, otherwise indexes the map (missing keys yield nil). -/
def Request.Get (r : Request) (key : String) : GoValue :=
  match r.Data with
  | none => GoValue.nil
  | some m => mapIndex m key

/-- `func (r *Request) GetString(key string) string`: the soft type
assertion `s, _ := raw.(string)` yields the string when `raw` holds one
and the empty string otherwise (including for the nil interface). -/
def Request.GetString (r : Request) (key : String) : String :=
  match r.Get key with
  | GoValue.str s => s
  | _ => ""

/-- `RenewRequest` from the source: the struct literal sets `Operation`,
`Path`, `Data`, `Secret`; `Storage` is omitted and therefore holds its
zero value, the nil interface. -/
def RenewRequest (path : String) (secret : Option Secret)
    (data : Option DataMap) : Request :=
  { Operation := RenewOperation
    Path := path
    Data := data
    Storage := none
    Secret := secret }

/-- `RevokeRequest` from the source: same struct literal with
`Operation` set to `RevokeOperation`. -/
def RevokeRequest (path : String) (secret : Option Secret)
    (data : Option DataMap) : Request :=
  { Operation := RevokeOperation
    Path := path
    Data := data
    Storage := none
    Secret := secret }

/-- `RollbackRequest` from the source: only `Operation` and `Path` are
set; `Data`, `Storage` and `Secret` hold their zero values (nil). -/
def RollbackRequest (path : String) : Request :=
  { Operation := RollbackOperation
    Path := path
    Data := none
    Storage := none
    Secret := none }

/-- A request produced by one of the three dedicated constructors. -/
def builtByConstructor (q : Request) : Prop :=
  (∃ p s d, q = RenewRequest p s d) ∨
  (∃ p s d, q = RevokeRequest p s d) ∨
  (∃ p, q = RollbackRequest p)

/-- The membership test a router would run against the source's
constants: a string is a defined operation exactly when it equals one of
the eight named constants. -/
def isDefinedOperation (o : Operation) : Bool :=
  o == ReadOperation || o == WriteOperation || o == DeleteOperation ||
  o == ListOperation || o == HelpOperation || o == RevokeOperation ||
  o == RenewOperation || o == RollbackOperation

/-- A request is well formed when its operation is one of the defined
constants. -/
def wellFormed (q : Request) : Prop :=
  q.Operation ∈ definedOperations

/-- State-passing translation of the body of `Get`: the source body reads
`r.Data` and performs no assignment to any field of the receiver, so each
return statement pairs the result with the unchanged receiver state. -/
def Request.getRun (r : Request) (key : String) : GoValue × Request :=
  match r.Data with
  | none => (GoValue.nil, r)
  | some m => (mapIndex m key, r)

/-- State-passing translation of the body of `GetString`: it calls `Get`
(threading the receiver state) and applies the soft string assertion,
again with no assignment to the receiver. -/
def Request.getStringRun (r : Request) (key : String) : String × Request :=
  match r.getRun key with
  | (GoValue.str s, r1) => (s, r1)
  | (_, r1) => ("", r1)

/-- Concrete request with a nil `Data` map, for evaluating accessors. -/
def reqNilData : Request :=
  { Operation := ReadOperation, Path := "", Data := none,
    Storage := none, Secret := none }

/-- Concrete request with an empty (non-nil) `Data` map. -/
def reqEmptyData : Request :=
  { Operation := ReadOperation, Path := "", Data := some [],
    Storage := none, Secret := none }

/-- Concrete request holding one string-typed and one int-typed field. -/
def reqTyped : Request :=
  { Operation := WriteOperation, Path := "aws/creds/role1",
    Data := some [("k", GoValue.str "hello"), ("n", GoValue.int 3)],
    Storage := none, Secret := none }

/-- Concrete request holding an int-typed field and an empty-string
field, with a third key absent. -/
def reqConflate : Request :=
  { Operation := ReadOperation, Path := "",
    Data := some [("n", GoValue.int 7), ("e", GoValue.str "")],
    Storage := none, Secret := none }

/-- C1 counterexample: `RenewRequest` accepts a nil secret, producing a
constructor-built request whose `Operation` is renew while `Secret` is
nil, so the claimed iff fails as stated. -/
theorem secret_iff_counterexample :
    ¬ (((RenewRequest "p" none none).Secret ≠ none) ↔
       ((RenewRequest "p" none none).Operation = RenewOperation ∨
        (RenewRequest "p" none none).Operation = RevokeOperation)) := by
  decide

/-- C1 (amended): for every request built via the dedicated
constructors, a non-nil `Secret` implies the operation is renew or
revoke; `RollbackRequest` always leaves `Secret` nil; `RenewRequest` and
`RevokeRequest` store exactly the secret they were given, so the iff
holds whenever the supplied secret is non-nil. -/
theorem constructor_secret_invariant (q : Request)
    (h : builtByConstructor q) (p : String) (s : Option Secret)
    (d : Option DataMap) :
    (q.Secret ≠ none →
      q.Operation = RenewOperation ∨ q.Operation = RevokeOperation) ∧
    (RollbackRequest p).Secret = none ∧
    (RenewRequest p s d).Secret = s ∧
    (RevokeRequest p s d).Secret = s ∧
    (s ≠ none →
      (((RenewRequest p s d).Secret ≠ none) ↔
        ((RenewRequest p s d).Operation = RenewOperation ∨
         (RenewRequest p s d).Operation = RevokeOperation)) ∧
      (((RevokeRequest p s d).Secret ≠ none) ↔
        ((RevokeRequest p s d).Operation = RenewOperation ∨
         (RevokeRequest p s d).Operation = RevokeOperation))) := by
  refine ⟨?_, rfl, rfl, rfl, ?_⟩
  · intro hs
    rcases h with ⟨p1, s1, d1, rfl⟩ | ⟨p1, s1, d1, rfl⟩ | ⟨p1, rfl⟩
    · exact Or.inl rfl
    · exact Or.inr rfl
    · exact absurd rfl hs
  · intro hs
    exact ⟨⟨fun _ => Or.inl rfl, fun _ => hs⟩,
           ⟨fun _ => Or.inr rfl, fun _ => hs⟩⟩

/-- C1 witness: the amended invariant evaluated on a concrete renew
request carrying a non-nil secret, and on a concrete rollback request. -/
theorem constructor_secret_invariant_witness :
    (RenewRequest "aws" (some (Secret.mk 0)) none).Secret
      = some (Secret.mk 0) ∧
    (RollbackRequest "aws").Secret = none :=
  ⟨(constructor_secret_invariant (RenewRequest "aws" (some (Secret.mk 0)) none)
      (Or.inl ⟨"aws", some (Secret.mk 0), none, rfl⟩)
      "aws" (some (Secret.mk 0)) none).2.2.1,
   (constructor_secret_invariant (RenewRequest "aws" (some (Secret.mk 0)) none)
      (Or.inl ⟨"aws", some (Secret.mk 0), none, rfl⟩)
      "aws" (some (Secret.mk 0)) none).2.1⟩

/-- C2 counterexample: the source's `const` block declares eight
operation constants, not nine. -/
theorem nine_variants_counterexample :
    ¬ (definedOperations.length = 9 ∧ definedOperations.Nodup) := by
  decide

/-- C2 (amended): the Operation enumeration consists of exactly eight
defined variants whose string values are pairwise distinct, and a string
passes the defined-operation membership test exactly when it is one of
those eight values. -/
theorem operation_enum_eight_distinct :
    definedOperations.length = 8 ∧ definedOperations.Nodup ∧
    ∀ o : Operation, (isDefinedOperation o = true ↔ o ∈ definedOperations) := by
  refine ⟨rfl, by decide, ?_⟩
  intro o
  simp [isDefinedOperation, definedOperations, ReadOperation,
        WriteOperation, DeleteOperation, ListOperation, HelpOperation,
        RevokeOperation, RenewOperation, RollbackOperation,
        List.mem_cons, or_assoc]

/-- C3: `RenewRequest p s d` sets `Operation` to renew, copies `p`, `s`
and `d` into `Path`, `Secret` and `Data`, and leaves `Storage` unset. -/
theorem renewRequest_fields (p : String) (s : Option Secret)
    (d : Option DataMap) :
    (RenewRequest p s d).Operation = RenewOperation ∧
    (RenewRequest p s d).Path = p ∧
    (RenewRequest p s d).Secret = s ∧
    (RenewRequest p s d).Data = d ∧
    (RenewRequest p s d).Storage = none :=
  ⟨rfl, rfl, rfl, rfl, rfl⟩

/-- C4: `RevokeRequest p s d` has the same shape as `RenewRequest p s d`
except its `Operation` is revoke. -/
theorem revokeRequest_fields (p : String) (s : Option Secret)
    (d : Option DataMap) :
    (RevokeRequest p s d).Operation = RevokeOperation ∧
    (RevokeRequest p s d).Path = p ∧
    (RevokeRequest p s d).Secret = s ∧
    (RevokeRequest p s d).Data = d ∧
    (RevokeRequest p s d).Storage = none :=
  ⟨rfl, rfl, rfl, rfl, rfl⟩

/-- C5: `RollbackRequest p` sets `Operation` to rollback, copies `p`
into `Path`, and leaves both `Secret` and `Data` nil. -/
theorem rollbackRequest_fields (p : String) :
    (RollbackRequest p).Operation = RollbackOperation ∧
    (RollbackRequest p).Path = p ∧
    (RollbackRequest p).Secret = none ∧
    (RollbackRequest p).Data = none :=
  ⟨rfl, rfl, rfl, rfl⟩

/-- C6: with a nil `Data` map, `Get` returns the nil interface and
`GetString` returns the empty string for every key (both are total, so
neither can panic); `Get` also returns the nil interface when the key is
missing from a non-nil map. -/
theorem get_nil_data (r : Request) (key : String) :
    (r.Data = none → r.Get key = GoValue.nil ∧ r.GetString key = "") ∧
    (∀ m, r.Data = some m → m.lookup key = none →
      r.Get key = GoValue.nil) := by
  constructor
  · intro h
    refine ⟨?_, ?_⟩
    · simp [Request.Get, h]
    · simp [Request.GetString, Request.Get, h]
  · intro m hm hk
    simp [Request.Get, hm, mapIndex, hk]

/-- C6 witness: the accessors evaluated on a concrete request with a nil
map and on one with an empty map. -/
theorem get_nil_data_witness :
    reqNilData.Get "k" = GoValue.nil ∧ reqNilData.GetString "k" = "" ∧
    reqEmptyData.Get "k" = GoValue.nil :=
  ⟨((get_nil_data reqNilData "k").1 rfl).1,
   ((get_nil_data reqNilData "k").1 rfl).2,
   (get_nil_data reqEmptyData "k").2 [] rfl rfl⟩

/-- C7: with a non-nil `Data` map, `GetString` returns the stored text
when the key holds a string, and the empty string (rather than failing)
when the key holds any non-string value. -/
theorem getString_typed (r : Request) (m : DataMap) (key : String)
    (h : r.Data = some m) :
    (∀ s, m.lookup key = some (GoValue.str s) → r.GetString key = s) ∧
    (∀ v, m.lookup key = some v → (∀ t, v ≠ GoValue.str t) →
      r.GetString key = "") := by
  constructor
  · intro s hs
    simp [Request.GetString, Request.Get, h, mapIndex, hs]
  · intro v hv hne
    cases v with
    | str t => exact absurd rfl (hne t)
    | nil => simp [Request.GetString, Request.Get, h, mapIndex, hv]
    | int n => simp [Request.GetString, Request.Get, h, mapIndex, hv]
    | boolean b => simp [Request.GetString, Request.Get, h, mapIndex, hv]

/-- C7 witness: on a concrete request, the string-typed field comes back
verbatim and the int-typed field comes back as the empty string. -/
theorem getString_typed_witness :
    reqTyped.GetString "k" = "hello" ∧ reqTyped.GetString "n" = "" :=
  ⟨(getString_typed reqTyped
      [("k", GoValue.str "hello"), ("n", GoValue.int 3)] "k" rfl).1
      "hello" rfl,
   (getString_typed reqTyped
      [("k", GoValue.str "hello"), ("n", GoValue.int 3)] "n" rfl).2
      (GoValue.int 3) rfl (by intro t hcon; cases hcon)⟩

/-- C8: the three constructors are total Lean functions (so they cannot
fail or signal an error) and for every input, nil secret and nil data
included, the request they return is well formed: its operation is one
of the defined constants. -/
theorem constructors_total (p : String) (s : Option Secret)
    (d : Option DataMap) :
    wellFormed (RenewRequest p s d) ∧ wellFormed (RevokeRequest p s d) ∧
    wellFormed (RollbackRequest p) := by
  refine ⟨?_, ?_, ?_⟩
  · show RenewOperation ∈ definedOperations
    decide
  · show RevokeOperation ∈ definedOperations
    decide
  · show RollbackOperation ∈ definedOperations
    decide

/-- C9: the state-passing translations of `Get` and `GetString` leave
the receiver unchanged, agree with the pure accessors, and calling
either twice on the resulting state returns the same answer. -/
theorem accessors_pure (r : Request) (key : String) :
    (r.getRun key).2 = r ∧
    (r.getStringRun key).2 = r ∧
    (r.getRun key).1 = r.Get key ∧
    (r.getStringRun key).1 = r.GetString key ∧
    r.getRun key = ((r.getRun key).2).getRun key ∧
    r.getStringRun key = ((r.getStringRun key).2).getStringRun key := by
  have h1 : (r.getRun key).2 = r := by
    cases hd : r.Data <;> simp [Request.getRun, hd]
  have h3 : (r.getRun key).1 = r.Get key := by
    cases hd : r.Data <;> simp [Request.getRun, Request.Get, hd]
  have h2 : (r.getStringRun key).2 = r := by
    unfold Request.getStringRun
    cases hg : r.getRun key with
    | mk v r1 =>
      have : r1 = r := by
        have := h1
        rw [hg] at this
        exact this
      cases v <;> simpa
  have h4 : (r.getStringRun key).1 = r.GetString key := by
    unfold Request.getStringRun Request.GetString
    cases hg : r.getRun key with
    | mk v r1 =>
      have hv : v = r.Get key := by
        rw [← h3, hg]
      rw [← hv]
      cases v <;> rfl
  refine ⟨h1, h2, h3, h4, ?_, ?_⟩
  · rw [h1]
  · rw [h2]

/-- C10: `GetString` returns the empty string in three indistinguishable
situations: the key is absent (nil map or missing key), the key holds a
non-string value, and the key holds the empty string itself. -/
theorem getString_conflates (r : Request) (key : String) :
    (r.Data = none → r.GetString key = "") ∧
    (∀ m, r.Data = some m → m.lookup key = none →
      r.GetString key = "") ∧
    (∀ m v, r.Data = some m → m.lookup key = some v →
      (∀ t, v ≠ GoValue.str t) → r.GetString key = "") ∧
    (∀ m, r.Data = some m → m.lookup key = some (GoValue.str "") →
      r.GetString key = "") := by
  refine ⟨?_, ?_, ?_, ?_⟩
  · intro h
    simp [Request.GetString, Request.Get, h]
  · intro m hm hk
    simp [Request.GetString, Request.Get, hm, mapIndex, hk]
  · intro m v hm hv hne
    cases v with
    | str t => exact absurd rfl (hne t)
    | nil => simp [Request.GetString, Request.Get, hm, mapIndex, hv]
    | int n => simp [Request.GetString, Request.Get, hm, mapIndex, hv]
    | boolean b => simp [Request.GetString, Request.Get, hm, mapIndex, hv]
  · intro m hm hk
    simp [Request.GetString, Request.Get, hm, mapIndex, hk]

/-- C10 witness: on one concrete request, a missing key, an int-typed
key and an empty-string key all yield the same empty-string result. -/
theorem getString_conflates_witness :
    reqConflate.GetString "missing" = "" ∧
    reqConflate.GetString "n" = "" ∧
    reqConflate.GetString "e" = "" :=
  ⟨(getString_conflates reqConflate "missing").2.1
      [("n", GoValue.int 7), ("e", GoValue.str "")] rfl rfl,
   (getString_conflates reqConflate "n").2.2.1
      [("n", GoValue.int 7), ("e", GoValue.str "")] (GoValue.int 7)
      rfl rfl (by intro t hcon; cases hcon),
   (getString_conflates reqConflate "e").2.2.2
      [("n", GoValue.int 7), ("e", GoValue.str "")] rfl rfl⟩

end Logical
